import Mathlib

/-!
Shallow embedding of the job_bot repository (job_bot.py, resource_scout.py,
resource_tracker.py, job_search_test.py) together with proofs about its
import, filtering, deduplication, query and update operations.

Modelling conventions:

* Python strings are Lean `String`; a nullable (possibly `None` / missing)
  field is `Option String`.
* SQLite `CURRENT_TIMESTAMP` / `datetime.now().isoformat()` is modelled by
  an explicit `now : Nat` clock argument; `ORDER BY date_added DESC` on ISO
  timestamp strings (lexicographic = chronological) is modelled as ordering
  on those `Nat` values.
* A `SELECT` with no `ORDER BY` clause returns rows in table (rowid /
  insertion) order, which is how SQLite scans a plain rowid table.
* The `md5` hex digest of `generate_resource_hash` is modelled as the
  digested string itself, i.e. the digest is taken to be collision-free.
* Python's substring test `needle in hay` is `strContains hay needle`. The
  pandas `str.contains` of the regex alternation of the exclude keywords is
  modelled exactly on the anchored-literal fragment (each keyword an
  optional leading `^` anchor, a metacharacter-free body, an optional
  trailing `$` anchor); a keyword list outside that fragment makes the
  filter return `Except.error`, the boundary of the model: there the
  program either raises `re.error` (invalid pattern) or applies general
  regex semantics the model does not cover. Every filter theorem stays
  inside the fragment.
* Network effects (the feedparser fetch of `test_rss_feeds`) are supplied
  to the route models as an explicit `fetched` argument holding the
  normalized entries the feeds produced.
* A Python exception that no `except` clause catches is `Except.error ()`;
  since it escapes before `conn.commit()`, the pending inserts are rolled
  back and the observable store is the one from before the call.
-/

instance {ε α : Type} [DecidableEq ε] [DecidableEq α] : DecidableEq (Except ε α) := fun a b =>
  match a, b with
  | .error e1, .error e2 =>
    if h : e1 = e2 then isTrue (by subst h; rfl) else isFalse (by simp [h])
  | .error _, .ok _ => isFalse (by simp)
  | .ok _, .error _ => isFalse (by simp)
  | .ok a1, .ok a2 =>
    if h : a1 = a2 then isTrue (by subst h; rfl) else isFalse (by simp [h])

/-- Python str.lower() (char-by-char, structurally recursive so that the
kernel can evaluate it). -/
def pyLower (s : String) : String := ⟨s.data.map Char.toLower⟩

/-- Python str.upper(). -/
def pyUpper (s : String) : String := ⟨s.data.map Char.toUpper⟩

/-- Python str.strip(): whitespace removed from both ends. -/
def pyStrip (s : String) : String :=
  ⟨((s.data.dropWhile Char.isWhitespace).reverse.dropWhile Char.isWhitespace).reverse⟩

/-- Whether the first list is an initial segment of the second. -/
def leadsWith : List Char → List Char → Bool
  | [], _ => true
  | _ :: _, [] => false
  | a :: as, b :: bs => a == b && leadsWith as bs

/-- Whether the second list occurs contiguously inside the first. -/
def hasSub : List Char → List Char → Bool
  | hay, needle =>
    leadsWith needle hay ||
      match hay with
      | [] => false
      | _ :: rest => hasSub rest needle

/-- Python `needle in hay` substring test (the empty needle always
matches). -/
def strContains (hay needle : String) : Bool :=
  hasSub hay.data needle.data

/-- Case-insensitive substring test, `needle.lower() in hay.lower()`. -/
def lcontains (hay needle : String) : Bool :=
  strContains (pyLower hay) (pyLower needle)

/-- A parsed feed entry as feedparser hands it over: every field may be
absent. -/
structure FeedEntry where
  title : Option String
  author : Option String
  link : Option String
  description : Option String
  summary : Option String
  published : Option String
deriving Repr, DecidableEq

/-- Description extraction (job_bot.py lines 52 to 54): take `description`,
falling back to `summary` when `description` is missing or empty. -/
def entry_description (e : FeedEntry) : String :=
  let d := e.description.getD ""
  if d == "" then e.summary.getD "" else d

/-- A normalized entry of the job subsystem. -/
structure Job where
  title : String
  company : String
  url : String
  description : String
  date_posted : String
  source : String
deriving Repr, DecidableEq

/-- Field defaults applied to a parsed feed entry (job_bot.py lines 56 to
63): a missing title becomes "No Title", a missing author "Unknown", and a
missing link the empty string. -/
def normalize_entry (source : String) (e : FeedEntry) : Job :=
  { title := e.title.getD "No Title"
    company := e.author.getD "Unknown"
    url := e.link.getD ""
    description := entry_description e
    date_posted := e.published.getD ""
    source := source }

/-- A row of the `jobs` table of job_bot.py (no status or notes column). -/
structure JobRow where
  id : Nat
  title : String
  company : String
  url : String
  description : String
  date_posted : String
  source : String
  date_added : Nat
deriving Repr, DecidableEq

/-- The `jobs` table plus its AUTOINCREMENT counter. -/
structure JobStore where
  rows : List JobRow
  nextId : Nat
deriving Repr, DecidableEq

/-- The row INSERT of JobTracker.add_job builds: fields copied from the
candidate, `date_added` from the DEFAULT CURRENT_TIMESTAMP clock. -/
def mk_job_row (id now : Nat) (job : Job) : JobRow :=
  { id := id, title := job.title, company := job.company, url := job.url
    description := job.description, date_posted := job.date_posted
    source := job.source, date_added := now }

/-- JobTracker.add_job (job_bot.py lines 132 to 150): duplicate check by
url, then INSERT. -/
def add_job (store : JobStore) (now : Nat) (job : Job) : JobStore × Bool :=
  if store.rows.any (fun r => r.url == job.url) then (store, false)
  else ({ rows := store.rows ++ [mk_job_row store.nextId now job]
          nextId := store.nextId + 1 }, true)

/-- JobTracker.get_jobs (job_bot.py lines 152 to 178): SELECT with no ORDER
BY (table order), optionally filtered by a LIKE on title or company (LIKE
is case-insensitive for ASCII). -/
def get_jobs (store : JobStore) (q : Option String) : List JobRow :=
  match q with
  | none => store.rows
  | some s => store.rows.filter (fun r => lcontains r.title s || lcontains r.company s)

/-- Conjunctive skill match of filter_jobs / filter_resources: every skill
occurs case-insensitively in the description or the title. -/
def all_skills_match (required : List String) (title descr : String) : Bool :=
  required.all (fun k => lcontains descr k || lcontains title k)

/-- Special (meta) characters of Python regular expressions: a keyword
containing none of them is matched by the re engine exactly as a literal. -/
def regexMeta (c : Char) : Bool :=
  c == '.' || c == '^' || c == '$' || c == '*' || c == '+' || c == '?' ||
  c == '\x7b' || c == '\x7d' || c == '[' || c == ']' || c == '\\' ||
  c == '|' || c == '(' || c == ')'

/-- A keyword that the regex engine treats as a plain literal. -/
def regex_literal (s : String) : Bool :=
  s.data.all (fun c => !regexMeta c)

/-- Decomposition of one alternation branch of the exclusion pattern:
whether it starts with a ^ anchor, its remaining body, and whether it ends
with a $ anchor. -/
def branch_parts (k : String) : Bool × List Char × Bool :=
  let l1 := k.data
  let p1 : Bool × List Char :=
    match l1 with
    | c :: t => if c == '^' then (true, t) else (false, l1)
    | [] => (false, l1)
  let p2 : Bool × List Char :=
    match p1.2.reverse with
    | c :: t => if c == '$' then (true, t.reverse) else (false, p1.2)
    | [] => (false, p1.2)
  (p1.1, p2.2, p2.1)

/-- Whether a keyword lies in the modelled regex fragment: an optional
leading ^ anchor, a body free of regex metacharacters, and an optional
trailing $ anchor. The Lean model of the pandas exclusion stage is exact on
this fragment and refuses (Except.error) patterns outside it: there the
program either raises re.error (a syntactically invalid pattern such as
"c++") or applies general regex semantics this model does not cover. -/
def fragment_branch (k : String) : Bool :=
  ((branch_parts k).2.1).all (fun c => !regexMeta c)

/-- Whether every keyword of the exclusion list lies in the modelled regex
fragment, so that the joined pattern k1|k2|... is modelled exactly. -/
def frag_ok (keywords : List String) : Bool :=
  keywords.all fragment_branch

/-- re.search semantics of one fragment branch against a row text, under
re.IGNORECASE (case=False): a ^-anchored body must lead the text, a
$-anchored body must end it, a doubly anchored body must equal it, and an
unanchored body is an ordinary substring. -/
def branch_hit (k hay : String) : Bool :=
  let p := branch_parts k
  let body := (pyLower ⟨p.2.1⟩).data
  let hs := (pyLower hay).data
  match p.1, p.2.2 with
  | true, true => hs == body
  | true, false => leadsWith body hs
  | false, true => leadsWith body.reverse hs.reverse
  | false, false => hasSub hs body

/-- The pandas str.contains test of the joined exclusion pattern: re.search
finds a position where some alternation branch matches, so the joined
pattern hits iff some branch hits on its own. -/
def any_branch_hit (keywords : List String) (s : String) : Bool :=
  keywords.any (fun k => branch_hit k s)

/-- JobSearchTester.filter_jobs (job_bot.py lines 85 to 110). An empty
parameter list is falsy in Python, so it disables the corresponding stage;
the exclusion stage also runs only on a non-empty frame, and compiles
str.contains regex-matching of the alternation of the exclude keywords
against title and description — modelled exactly for keywords inside the
anchored-literal fragment, and as Except.error beyond it (where the
program raises re.error or applies unmodelled regex semantics). -/
def filter_jobs (entries : List Job) (required_skills exclude_keywords : List String) :
    Except Unit (List Job) :=
  if entries.isEmpty then .ok entries
  else
    let df := if required_skills.isEmpty then entries
              else entries.filter (fun j => all_skills_match required_skills j.title j.description)
    if exclude_keywords.isEmpty || df.isEmpty then .ok df
    else if frag_ok exclude_keywords then
      .ok ((df.filter (fun j => !any_branch_hit exclude_keywords j.title)).filter
             (fun j => !any_branch_hit exclude_keywords j.description))
    else .error ()

/-- Flask route POST /search of job_bot.py (lines 189 to 208): filter the
fetched frame with no arguments, add each row, counting only successful
inserts, and answer (store, new_count, total_fetched). With both filter
parameters absent no exclusion pattern is ever compiled, so the filter
cannot raise and the empty-list default is unreachable. -/
def search_jobs (store : JobStore) (now : Nat) (fetched : List Job) :
    JobStore × Nat × Nat :=
  let df := (filter_jobs fetched [] []).toOption.getD []
  let out := df.foldl
    (fun (acc : JobStore × Nat) job =>
      let res := add_job acc.1 now job
      (res.1, if res.2 then acc.2 + 1 else acc.2)) (store, 0)
  (out.1, out.2, df.length)

/-- A normalized entry of the resource_scout subsystem (two extra fields). -/
structure ScoutResource where
  title : String
  company : String
  url : String
  description : String
  date_posted : String
  source : String
  location : String
  work_status : String
deriving Repr, DecidableEq

/-- A row of the `resources` table of resource_scout.py (url UNIQUE, no
status or notes column; location and work_status added by migration). -/
structure ScoutRow where
  id : Nat
  title : String
  company : String
  url : String
  description : String
  date_posted : String
  source : String
  date_added : Nat
  location : String
  work_status : String
deriving Repr, DecidableEq

/-- The resource_scout `resources` table plus its AUTOINCREMENT counter. -/
structure ScoutStore where
  rows : List ScoutRow
  nextId : Nat
deriving Repr, DecidableEq

/-- The row resourceTracker.add_resource inserts. -/
def mk_scout_row (id now : Nat) (r : ScoutResource) : ScoutRow :=
  { id := id, title := r.title, company := r.company, url := r.url
    description := r.description, date_posted := r.date_posted
    source := r.source, date_added := now, location := r.location
    work_status := r.work_status }

/-- resourceTracker.add_resource (resource_scout.py lines 157 to 177):
duplicate check by url, then INSERT. -/
def add_resource (store : ScoutStore) (now : Nat) (r : ScoutResource) :
    ScoutStore × Bool :=
  if store.rows.any (fun x => x.url == r.url) then (store, false)
  else ({ rows := store.rows ++ [mk_scout_row store.nextId now r]
          nextId := store.nextId + 1 }, true)

/-- ResourceSearchTester.filter_resources (resource_scout.py lines 74 to
93): same staging as filter_jobs, including the regex exclusion stage
modelled exactly on the anchored-literal fragment and as Except.error
beyond it. -/
def filter_resources (entries : List ScoutResource)
    (required_skills exclude_keywords : List String) :
    Except Unit (List ScoutResource) :=
  if entries.isEmpty then .ok entries
  else
    let df := if required_skills.isEmpty then entries
              else entries.filter (fun r => all_skills_match required_skills r.title r.description)
    if exclude_keywords.isEmpty || df.isEmpty then .ok df
    else if frag_ok exclude_keywords then
      .ok ((df.filter (fun r => !any_branch_hit exclude_keywords r.title)).filter
             (fun r => !any_branch_hit exclude_keywords r.description))
    else .error ()

/-- Flask route POST /search of resource_scout.py (lines 362 to 376):
filter the fetched frame with no arguments, add each row, and answer
(store, new_count, total_fetched). The code increments new_count for every
row of the frame, ignoring the boolean add_resource returns (lines 369 to
372). With both filter parameters absent no exclusion pattern is compiled,
so the filter cannot raise and the empty-list default is unreachable. -/
def search_resources (store : ScoutStore) (now : Nat) (fetched : List ScoutResource) :
    ScoutStore × Nat × Nat :=
  let df := (filter_resources fetched [] []).toOption.getD []
  let out := df.foldl
    (fun (acc : ScoutStore × Nat) r =>
      let res := add_resource acc.1 now r
      (res.1, acc.2 + 1)) (store, 0)
  (out.1, out.2, df.length)

/-- A row of the `data_sources` table of resource_scout.py. -/
structure DataSource where
  id : Nat
  name : Option String
  source_type : Option String
  best_for : Option String
  source_url : Option String
deriving Repr, DecidableEq

/-- A row of the `searches` table of resource_scout.py. -/
structure SavedSearch where
  id : Nat
  name : Option String
  keywords : Option String
  location : Option String
  is_active : Bool
  data_source_id : Option Nat
deriving Repr, DecidableEq

/-- The whole persistent state of the resource_scout subsystem. -/
structure ScoutState where
  resources : ScoutStore
  data_sources : List DataSource
  searches : List SavedSearch
deriving Repr, DecidableEq

/-- The projection resourceTracker.get_search_by_id selects. -/
structure SearchJoinRow where
  id : Nat
  keywords : Option String
  location : Option String
  data_source_type : Option String
  data_source_url : Option String
deriving Repr, DecidableEq

/-- resourceTracker.get_search_by_id (resource_scout.py lines 295 to 317):
LEFT JOIN of the saved search with its data source; a missing data source
leaves the joined columns NULL. -/
def get_search_by_id (st : ScoutState) (sid : Nat) : Option SearchJoinRow :=
  (st.searches.find? (fun s => s.id == sid)).map (fun s =>
    let ds := s.data_source_id.bind (fun i => st.data_sources.find? (fun d => d.id == i))
    { id := s.id, keywords := s.keywords, location := s.location
      data_source_type := ds.bind (fun d => d.source_type)
      data_source_url := ds.bind (fun d => d.source_url) })

/-- The two response shapes of the /savedsearches/id/run route. -/
inductive RouteResponse
  | notFound
  | redirectSavedSearches
deriving Repr, DecidableEq

/-- Python truthiness of an optional string: None and "" are falsy. -/
def truthy (s : Option String) : Bool :=
  match s with
  | none => false
  | some v => !(v == "")

/-- Flask route POST /savedsearches/id/run (resource_scout.py lines 432 to
452). The network fetch of the RSS branch is supplied as `fetched`; the
API branch and the fallback branch redirect without touching the store. -/
def run_saved_search (st : ScoutState) (now : Nat) (fetched : List ScoutResource)
    (sid : Nat) : ScoutState × RouteResponse :=
  match get_search_by_id st sid with
  | none => (st, .notFound)
  | some s =>
    if truthy s.data_source_type && (pyUpper (s.data_source_type.getD "") == "RSS") then
      let df := (filter_resources fetched [] []).toOption.getD []
      let store2 := df.foldl (fun acc r => (add_resource acc now r).1) st.resources
      ({ st with resources := store2 }, .redirectSavedSearches)
    else if truthy s.data_source_type && (pyUpper (s.data_source_type.getD "") == "API") then
      (st, .redirectSavedSearches)
    else (st, .redirectSavedSearches)

/-- A candidate row handed to resourceDatabase.add_resources; fields may be
missing or NULL. -/
structure RCandidate where
  title : Option String
  company : Option String
  url : Option String
  description : Option String
  date_posted : Option String
  source : Option String
deriving Repr, DecidableEq

/-- The string resourceDatabase.generate_resource_hash digests: lower-cased
trimmed title, company and description concatenated (md5 modelled as
collision-free, so the digest is represented by this string itself). -/
def raw_hash (r : RCandidate) : String :=
  pyStrip (pyLower (r.title.getD "")) ++ pyStrip (pyLower (r.company.getD ""))
    ++ pyStrip (pyLower (r.description.getD ""))

/-- resourceDatabase.generate_resource_hash (resource_tracker.py lines 37
to 43); calling .lower() on a missing (None) field raises an uncaught
AttributeError, modelled as .error. -/
def generate_resource_hash (r : RCandidate) : Except Unit String :=
  match r.title, r.company, r.description with
  | some _, some _, some _ => .ok (raw_hash r)
  | _, _, _ => .error ()

/-- A row of the `resources` table of resource_tracker.py: title NOT NULL,
url UNIQUE, resource_hash UNIQUE, status DEFAULT new. -/
structure RRow where
  id : Nat
  title : String
  company : Option String
  url : Option String
  description : Option String
  date_posted : Option String
  source : Option String
  date_added : Nat
  resource_hash : String
  status : String
  notes : Option String
deriving Repr, DecidableEq

/-- The resource_tracker `resources` table plus its AUTOINCREMENT counter. -/
structure RStore where
  rows : List RRow
  nextId : Nat
deriving Repr, DecidableEq

/-- Violation test of the UNIQUE url column: a NULL url never conflicts;
a non-NULL url conflicts iff some stored row carries the same url. -/
def url_conflict (store : RStore) (u : Option String) : Bool :=
  match u with
  | none => false
  | some v => store.rows.any (fun x => x.url == some v)

/-- The row the INSERT of resourceDatabase.add_resources builds: fields
copied, date_added from the clock, status defaulting to "new", notes NULL. -/
def mk_resource_row (id now : Nat) (r : RCandidate) (h : String) (t : String) : RRow :=
  { id := id, title := t, company := r.company, url := r.url
    description := r.description, date_posted := r.date_posted
    source := r.source, date_added := now, resource_hash := h
    status := "new", notes := none }

/-- One iteration of resourceDatabase.add_resources for a single candidate
(resource_tracker.py lines 51 to 80): hash the candidate (an uncaught
exception if a digested field is missing), pre-check the hash, then INSERT;
a sqlite3.IntegrityError (UNIQUE url) is caught and the candidate counted
as a duplicate. Returns the store and whether the row was inserted. -/
def add_resource_item (store : RStore) (now : Nat) (r : RCandidate) :
    Except Unit (RStore × Bool) :=
  match r.title, generate_resource_hash r with
  | some t, .ok h =>
    if store.rows.any (fun x => x.resource_hash == h) then .ok (store, false)
    else if url_conflict store r.url then .ok (store, false)
    else .ok ({ rows := store.rows ++ [mk_resource_row store.nextId now r h t]
                nextId := store.nextId + 1 }, true)
  | _, _ => .error ()

/-- resourceDatabase.add_resources (resource_tracker.py lines 45 to 84):
fold the candidates in input order, counting inserts and duplicates; an
uncaught exception aborts the whole batch before conn.commit(), so the
observable store stays what it was. -/
def add_resources (store : RStore) (now : Nat) :
    List RCandidate → Except Unit (RStore × Nat × Nat)
  | [] => .ok (store, 0, 0)
  | r :: rest =>
    match add_resource_item store now r with
    | .error _ => .error ()
    | .ok (s, inserted) =>
      match add_resources s now rest with
      | .error _ => .error ()
      | .ok (s2, n, d) =>
        .ok (s2, if inserted then n + 1 else n, if inserted then d else d + 1)

/-- Newest-first comparison on stored resources. -/
def date_desc (a b : RRow) : Prop := b.date_added ≤ a.date_added

instance : DecidableRel date_desc := fun a b => Nat.decLe b.date_added a.date_added

instance : IsTotal RRow date_desc := ⟨fun a b => Nat.le_total b.date_added a.date_added⟩

instance : IsTrans RRow date_desc := ⟨fun _ _ _ h1 h2 => Nat.le_trans h2 h1⟩

/-- resourceDatabase.get_all_resources (resource_tracker.py lines 86 to
94): SELECT * FROM resources ORDER BY date_added DESC. -/
def get_all_resources (store : RStore) : List RRow :=
  List.insertionSort date_desc store.rows

/-- resourceDatabase.update_resource_status (resource_tracker.py lines 96
to 102): UPDATE resources SET status WHERE id; rows with another id keep
every field, a missing id updates nothing and raises nothing. -/
def update_resource_status (store : RStore) (rid : Nat) (status : String) : RStore :=
  { store with
    rows := store.rows.map (fun r => if r.id = rid then { r with status := status } else r) }

/-- resourceDatabase.add_resource_note (resource_tracker.py lines 104 to
110): UPDATE resources SET notes WHERE id. -/
def add_resource_note (store : RStore) (rid : Nat) (note : String) : RStore :=
  { store with
    rows := store.rows.map (fun r => if r.id = rid then { r with notes := some note } else r) }

/-- A candidate all of whose digested fields are present, so hashing it
cannot raise. -/
def wellformedRC (r : RCandidate) : Bool :=
  r.title.isSome && r.company.isSome && r.description.isSome

/-! Concrete stores and candidates the claim theorems below evaluate. -/

/-- An empty resource_tracker store. -/
def rEmpty : RStore := { rows := [], nextId := 1 }

/-- An empty job store. -/
def jEmpty : JobStore := { rows := [], nextId := 1 }

/-- An empty resource_scout store. -/
def sEmpty : ScoutStore := { rows := [], nextId := 1 }

/-- A fetched resource whose url is already stored. -/
def c1res : ScoutResource :=
  { title := "Python Dev", company := "Acme", url := "http://x/1"
    description := "need python", date_posted := "", source := "weworkremotely.com"
    location := "remote", work_status := "remote" }

/-- The stored copy of c1res. -/
def c1row : ScoutRow := mk_scout_row 1 0 c1res

/-- A scout store already holding c1res's url. -/
def c1store : ScoutStore := { rows := [c1row], nextId := 2 }

/-- The job-side twin of c1res. -/
def c1job : Job :=
  { title := "Python Dev", company := "Acme", url := "http://x/1"
    description := "need python", date_posted := "", source := "weworkremotely.com" }

/-- A job store already holding c1job's url. -/
def c1jstore : JobStore := { rows := [mk_job_row 1 0 c1job], nextId := 2 }

/-- A stored resource row with hash "aacmed1" and url "http://x/1". -/
def c2row : RRow :=
  { id := 1, title := "A", company := some "Acme", url := some "http://x/1"
    description := some "D1", date_posted := some "", source := some ""
    date_added := 0, resource_hash := "aacmed1", status := "new", notes := none }

/-- A store holding only c2row. -/
def c2store : RStore := { rows := [c2row], nextId := 2 }

/-- A candidate whose hash ("bacmed2") is fresh for c2store but whose url
collides with c2row. -/
def c2cand : RCandidate :=
  { title := some "B", company := some "Acme", url := some "http://x/1"
    description := some "D2", date_posted := some "", source := some "" }

/-- A fresh well-formed candidate. -/
def c2fresh : RCandidate :=
  { title := some "C", company := some "Gamma", url := some "http://x/7"
    description := some "D7", date_posted := some "", source := some "" }

/-- A candidate with c2row's hash ("aacmed1") under a different url. -/
def c2dup : RCandidate :=
  { title := some "A", company := some "Acme", url := some "http://y/9"
    description := some "D1", date_posted := some "", source := some "" }

/-- A candidate with its required title missing. -/
def c3bad : RCandidate :=
  { title := none, company := some "Acme", url := some "http://x/9"
    description := some "D", date_posted := some "", source := some "" }

/-- A well-formed candidate that would insert fine on its own. -/
def c3good : RCandidate :=
  { title := some "T", company := some "Acme", url := some "http://x/2"
    description := some "D", date_posted := some "", source := some "" }

/-- A well-formed candidate, duplicated inside the c4 batch. -/
def c4c : RCandidate :=
  { title := some "T", company := some "Acme", url := some "http://x/3"
    description := some "D", date_posted := some "", source := some "" }

/-- First member of a hash- and url-distinct batch. -/
def c4a : RCandidate :=
  { title := some "A1", company := some "Acme", url := some "http://x/4"
    description := some "DA", date_posted := some "", source := some "" }

/-- Second member of a hash- and url-distinct batch. -/
def c4b : RCandidate :=
  { title := some "B1", company := some "Beta", url := some "http://x/5"
    description := some "DB", date_posted := some "", source := some "" }

/-- An entry that survives required "python" and exclude "senior". -/
def c5job : Job :=
  { title := "Python Dev", company := "Acme", url := "http://x/1"
    description := "need python", date_posted := "", source := "weworkremotely.com" }

/-- The scout twin of c5job. -/
def c5res : ScoutResource :=
  { title := "Python Dev", company := "Acme", url := "http://x/1"
    description := "need python", date_posted := "", source := "weworkremotely.com"
    location := "remote", work_status := "remote" }

/-- An entry whose title contains the literal two-character text "^a" but
does not start with "a": the anchored regex branch ^a does not match it. -/
def c5caret : Job :=
  { title := "b^a python dev", company := "Acme", url := "http://x/8"
    description := "need python", date_posted := "", source := "weworkremotely.com" }

/-- An older stored job (date_added 1). -/
def c6row1 : JobRow := mk_job_row 1 1 c1job

/-- A newer stored job (date_added 5). -/
def c6row2 : JobRow :=
  { id := 2, title := "Other", company := "Diff", url := "http://x/2"
    description := "different", date_posted := "", source := "remoteok.io"
    date_added := 5 }

/-- A job store whose table order is oldest-first. -/
def c6jstore : JobStore := { rows := [c6row1, c6row2], nextId := 3 }

/-- A stored resource row with id 1, not touched by the c7 update. -/
def c7rowA : RRow :=
  { id := 1, title := "A", company := some "Acme", url := some "http://x/1"
    description := some "D1", date_posted := some "", source := some ""
    date_added := 3, resource_hash := "aacmed1", status := "new", notes := some "keep" }

/-- A stored resource row with id 2, target of the c7 update. -/
def c7rowB : RRow :=
  { id := 2, title := "B", company := some "Beta", url := some "http://x/2"
    description := some "D2", date_posted := some "", source := some ""
    date_added := 4, resource_hash := "bbetad2", status := "new", notes := none }

/-- A store with two rows of distinct ids. -/
def c7store : RStore := { rows := [c7rowA, c7rowB], nextId := 3 }

/-- A data source of the unimplemented type "API". -/
def c8ds : DataSource :=
  { id := 1, name := some "ext", source_type := some "API"
    best_for := some "General", source_url := some "http://api.example" }

/-- A saved search linked to the API data source. -/
def c8search : SavedSearch :=
  { id := 1, name := some "My Search", keywords := some "python"
    location := some "remote", is_active := true, data_source_id := some 1 }

/-- The scout state holding the API-typed saved search. -/
def c8state : ScoutState :=
  { resources := sEmpty, data_sources := [c8ds], searches := [c8search] }

/-- The joined row get_search_by_id yields for c8search. -/
def c8join : SearchJoinRow :=
  { id := 1, keywords := some "python", location := some "remote"
    data_source_type := some "API", data_source_url := some "http://api.example" }

/-- A feed entry with no link field at all. -/
def c9entry : FeedEntry :=
  { title := some "Python Dev", author := none, link := none
    description := some "need python", summary := none, published := none }

/-- The normalized form of c9entry; its url defaults to the empty string. -/
def c9job1 : Job := normalize_entry "weworkremotely.com" c9entry

/-- The stored copy of c9job1, occupying the empty url. -/
def c9row : JobRow := mk_job_row 1 0 c9job1

/-- A job store already holding a row with url = "". -/
def c9store : JobStore := { rows := [c9row], nextId := 2 }

/-- A completely different candidate that also has an empty url. -/
def c9job2 : Job :=
  { title := "Other", company := "Diff", url := "", description := "different"
    date_posted := "", source := "remoteok.io" }

/-- A stored resource row whose url "http://x/1" is taken (hash "aacmed1"). -/
def c10row : RRow :=
  { id := 1, title := "A", company := some "Acme", url := some "http://x/1"
    description := some "D1", date_posted := some "", source := some ""
    date_added := 0, resource_hash := "aacmed1", status := "new", notes := none }

/-- A store holding only c10row. -/
def c10store : RStore := { rows := [c10row], nextId := 2 }

/-- A candidate with fresh hash "bbetadd" but c10row's url. -/
def c10cand : RCandidate :=
  { title := some "B", company := some "Beta", url := some "http://x/1"
    description := some "DD", date_posted := some "", source := some "" }

/-! Helper lemmas. -/

/-- For a candidate whose digested fields are all present,
add_resource_item is the hash pre-check, the url uniqueness check and the
insert, in that order. -/
theorem add_resource_item_eq_of_wf (store : RStore) (now : Nat) (r : RCandidate)
    (hwf : wellformedRC r = true) :
    add_resource_item store now r =
      (if store.rows.any (fun x => x.resource_hash == raw_hash r) then .ok (store, false)
       else if url_conflict store r.url then .ok (store, false)
       else .ok ({ rows := store.rows ++ [mk_resource_row store.nextId now r (raw_hash r) (r.title.getD "")]
                   nextId := store.nextId + 1 }, true)) := by
  simp only [wellformedRC, Bool.and_eq_true, Option.isSome_iff_exists] at hwf
  obtain ⟨⟨⟨t, ht⟩, c, hc⟩, d, hd⟩ := hwf
  simp [add_resource_item, generate_resource_hash, ht, hc, hd]

/-! Claim theorems. -/

/-- C1: the resource_scout POST /search route does not report the number of
newly inserted rows: re-importing one entry whose url is already stored
leaves the store unchanged (0 rows inserted, add_resource answers false)
yet the route reports new_count = 1 with total_fetched = 1, while the
parallel job_bot POST /search route reports 0 new jobs for its twin input. -/
theorem c1_search_resources_overcounts :
    search_resources c1store 3 [c1res] = (c1store, 1, 1) ∧
    add_resource c1store 3 c1res = (c1store, false) ∧
    search_jobs c1jstore 3 [c1job] = (c1jstore, 0, 1) := by
  refine ⟨by decide, by decide, by decide⟩

/-- C6 counterexample: get_jobs with no text filter returns the two stored
rows in table order, oldest first, so its output is not ordered
newest-first by date_added as the claim states. -/
theorem c6_get_jobs_not_newest_first :
    get_jobs c6jstore none = [c6row1, c6row2] ∧
    ¬ List.Pairwise (fun a b : JobRow => b.date_added ≤ a.date_added)
        (get_jobs c6jstore none) :=
  ⟨rfl, by decide⟩

/-- C6 (amended): get_all_resources returns every stored item (a
permutation of the store) ordered newest-first by date_added; get_jobs with
no text filter also returns every stored item with no silent drops, but in
table (insertion) order, since its SELECT has no ORDER BY. -/
theorem c6_query_amended (rstore : RStore) (jstore : JobStore) :
    (get_all_resources rstore).Perm rstore.rows ∧
    List.Sorted date_desc (get_all_resources rstore) ∧
    get_jobs jstore none = jstore.rows :=
  ⟨List.perm_insertionSort date_desc rstore.rows,
   List.sorted_insertionSort date_desc rstore.rows, rfl⟩

/-- C10: a candidate whose hash matches no stored row but whose url equals
an already-stored row's url passes the hash pre-check, fails the INSERT on
the UNIQUE url column, and the caught IntegrityError counts it as a
duplicate: add_resources neither raises nor adds a row for it. -/
theorem c10_url_conflict_is_duplicate (store : RStore) (now : Nat)
    (r : RCandidate) (u : String)
    (hwf : wellformedRC r = true)
    (hhash : ∀ x ∈ store.rows, x.resource_hash ≠ raw_hash r)
    (hu : r.url = some u)
    (hconf : ∃ x ∈ store.rows, x.url = some u) :
    add_resource_item store now r = .ok (store, false) ∧
    add_resources store now [r] = .ok (store, 0, 1) := by
  have h1 : store.rows.any (fun x => x.resource_hash == raw_hash r) = false := by
    simp only [List.any_eq_false]
    intro x hx
    simpa using hhash x hx
  have h2 : url_conflict store r.url = true := by
    obtain ⟨x, hx, hxu⟩ := hconf
    simp only [url_conflict, hu, List.any_eq_true]
    exact ⟨x, hx, by simp [hxu]⟩
  have hitem : add_resource_item store now r = .ok (store, false) := by
    rw [add_resource_item_eq_of_wf store now r hwf]
    simp [h1, h2]
  exact ⟨hitem, by simp [add_resources, hitem]⟩

/-- C10 witness: the concrete store holding url http://x/1 rejects a fresh
hash carrying that url as a duplicate, without error and without growth. -/
theorem c10_url_conflict_is_duplicate_witness :
    add_resource_item c10store 5 c10cand = .ok (c10store, false) ∧
    add_resources c10store 5 [c10cand] = .ok (c10store, 0, 1) :=
  c10_url_conflict_is_duplicate c10store 5 c10cand "http://x/1"
    (by decide) (by decide) (by decide) (by decide)

/-- C9: the fetcher defaults a missing link to the empty string; once some
stored job carries url = "", add_job answers false and inserts nothing for
every further candidate with an empty url, whatever its other fields; and
add_job keeps the number of stored rows with url = "" at most one. -/
theorem c9_empty_url_dedup (src : String) (e : FeedEntry) (store : JobStore)
    (now : Nat) (job : Job) :
    (e.link = none → (normalize_entry src e).url = "") ∧
    ((∃ x ∈ store.rows, x.url = "") → job.url = "" →
      add_job store now job = (store, false)) ∧
    (store.rows.countP (fun x => x.url == "") ≤ 1 →
      ((add_job store now job).1.rows.countP (fun x => x.url == "")) ≤ 1) := by
  refine ⟨fun h => by simp [normalize_entry, h], ?_, ?_⟩
  · rintro ⟨x, hx, hxu⟩ hju
    have : store.rows.any (fun r => r.url == job.url) = true := by
      simp only [List.any_eq_true]
      exact ⟨x, hx, by simp [hxu, hju]⟩
    simp [add_job, this]
  · intro hle
    by_cases hdup : (store.rows.any fun r => r.url == job.url) = true
    · simpa [add_job, hdup] using hle
    · have hd : (store.rows.any fun r => r.url == job.url) = false := by
        simpa using hdup
      have hfresh : ∀ x ∈ store.rows, x.url ≠ job.url := by
        simpa [List.any_eq_false] using hd
      simp only [add_job, hd, Bool.false_eq_true, if_false]
      by_cases hju : job.url = ""
      · have h0 : store.rows.countP (fun x => x.url == "") = 0 := by
          rw [List.countP_eq_zero]
          intro x hx
          simpa [hju] using hfresh x hx
        simp [List.countP_append, h0, mk_job_row, hju]
      · have h1 : List.countP (fun x => x.url == "")
            [mk_job_row store.nextId now job] = 0 := by
          simp [mk_job_row, hju]
        rw [List.countP_append, h1]
        simpa using hle

/-- C9 witness: the normalized linkless entry has url = "", the store
already holding an empty-url row rejects a different empty-url candidate
unchanged, and the count of empty-url rows stays at most one. -/
theorem c9_empty_url_dedup_witness :
    (normalize_entry "weworkremotely.com" c9entry).url = "" ∧
    add_job c9store 9 c9job2 = (c9store, false) ∧
    ((add_job c9store 9 c9job2).1.rows.countP (fun x => x.url == "")) ≤ 1 :=
  ⟨(c9_empty_url_dedup "weworkremotely.com" c9entry c9store 9 c9job2).1 rfl,
   (c9_empty_url_dedup "weworkremotely.com" c9entry c9store 9 c9job2).2.1
     (by decide) rfl,
   (c9_empty_url_dedup "weworkremotely.com" c9entry c9store 9 c9job2).2.2
     (by decide)⟩

/-- C8: run_saved_search answers a not-found error when no saved search
carries the id, and answers the redirect success without touching any
stored state when the joined data source type upper-cases to "API". -/
theorem c8_run_saved_search_api (st : ScoutState) (now : Nat)
    (fetched : List ScoutResource) (sid : Nat) :
    ((∀ s ∈ st.searches, s.id ≠ sid) →
      run_saved_search st now fetched sid = (st, .notFound)) ∧
    (∀ j t, get_search_by_id st sid = some j → j.data_source_type = some t →
      pyUpper t = "API" →
      run_saved_search st now fetched sid = (st, .redirectSavedSearches)) := by
  constructor
  · intro hall
    have hfind : st.searches.find? (fun s => s.id == sid) = none := by
      rw [List.find?_eq_none]
      intro s hs
      simpa using hall s hs
    simp [run_saved_search, get_search_by_id, hfind]
  · intro j t hj ht hup
    have hne : t ≠ "" := by
      intro he
      subst he
      exact absurd hup (by decide)
    have ht1 : truthy j.data_source_type = true := by
      simp [truthy, ht, hne]
    have hrss : (pyUpper (j.data_source_type.getD "") == "RSS") = false := by
      simp [ht, hup]
    have hapi : (pyUpper (j.data_source_type.getD "") == "API") = true := by
      simp [ht, hup]
    simp [run_saved_search, hj, ht1, hrss, hapi]

/-- C8 witness: the concrete state answers not-found for the unknown id 2
and a state-preserving redirect for the API-typed saved search 1. -/
theorem c8_run_saved_search_api_witness :
    run_saved_search c8state 0 [] 2 = (c8state, .notFound) ∧
    run_saved_search c8state 0 [] 1 = (c8state, .redirectSavedSearches) :=
  ⟨(c8_run_saved_search_api c8state 0 [] 2).1 (by decide),
   (c8_run_saved_search_api c8state 0 [] 1).2 c8join "API" (by decide) rfl
     (by decide)⟩

/-- C7: update_resource_status keeps the row count, changes only the status
field of rows carrying the id while keeping every other row and every other
field byte-for-byte, and is an exception-free no-op for an id no row
carries. -/
theorem c7_update_status_frame (store : RStore) (rid : Nat) (status : String) :
    ((update_resource_status store rid status).rows.length = store.rows.length) ∧
    (∀ i : Nat, ∀ h : i < store.rows.length,
      ((store.rows[i]).id ≠ rid →
        (update_resource_status store rid status).rows[i]? = some store.rows[i]) ∧
      ((store.rows[i]).id = rid →
        (update_resource_status store rid status).rows[i]? =
          some { store.rows[i] with status := status })) ∧
    ((∀ x ∈ store.rows, x.id ≠ rid) → update_resource_status store rid status = store) := by
  refine ⟨by simp [update_resource_status], ?_, ?_⟩
  · intro i h
    have hmap : (update_resource_status store rid status).rows[i]? =
        (store.rows[i]?).map
          (fun r => if r.id = rid then { r with status := status } else r) := by
      simp [update_resource_status]
    have hsome : store.rows[i]? = some store.rows[i] := List.getElem?_eq_getElem h
    constructor
    · intro hne
      rw [hmap, hsome]
      simp [hne]
    · intro heq
      rw [hmap, hsome]
      simp [heq]
  · intro hall
    have hid : store.rows.map
        (fun r => if r.id = rid then { r with status := status } else r) = store.rows := by
      calc store.rows.map (fun r => if r.id = rid then { r with status := status } else r)
          = store.rows.map id := List.map_congr_left (fun x hx => by simp [hall x hx])
        _ = store.rows := List.map_id store.rows
    simp [update_resource_status, hid]

/-- C7 witness: updating id 2 to applied keeps row 0 unchanged, changes
only row 1's status, and updating the absent id 3 changes nothing. -/
theorem c7_update_status_frame_witness :
    (update_resource_status c7store 2 "applied").rows[0]? = some c7rowA ∧
    (update_resource_status c7store 2 "applied").rows[1]? =
      some { c7rowB with status := "applied" } ∧
    update_resource_status c7store 3 "applied" = c7store :=
  ⟨((c7_update_status_frame c7store 2 "applied").2.1 0 (by decide)).1 (by decide),
   ((c7_update_status_frame c7store 2 "applied").2.1 1 (by decide)).2 (by decide),
   (c7_update_status_frame c7store 3 "applied").2.2 (by decide)⟩

/-- A branch of the exclusion pattern that is a plain regex literal
decomposes into no anchors around its raw character list. -/
theorem branch_parts_of_literal (k : String) (hk : regex_literal k = true) :
    branch_parts k = (false, k.data, false) := by
  rw [regex_literal] at hk
  unfold branch_parts
  cases hl : k.data with
  | nil => simp [hl]
  | cons c t =>
    rw [hl] at hk
    have hc : (c == '^') = false := by
      have h1 := List.all_eq_true.mp hk c (List.mem_cons_self c t)
      have h2 : regexMeta c = false := by simpa using h1
      have hne : c ≠ '^' := by
        intro he
        rw [he] at h2
        exact absurd h2 (by decide)
      simp [hne]
    simp only [hl, hc, Bool.false_eq_true, if_false]
    cases hr : (c :: t).reverse with
    | nil => exact absurd hr (by simp)
    | cons d rs =>
      have hd : (d == '$') = false := by
        have hdm : d ∈ c :: t := by
          have hmem2 : d ∈ (c :: t).reverse := by
            rw [hr]
            exact List.mem_cons_self d rs
          exact List.mem_reverse.mp hmem2
        have h1 := List.all_eq_true.mp hk d hdm
        have h2 : regexMeta d = false := by simpa using h1
        have hne : d ≠ '$' := by
          intro he
          rw [he] at h2
          exact absurd h2 (by decide)
        simp [hne]
      simp [hl, hr, hd]

/-- On regex-literal keywords the fragment branch semantics is exactly the
case-insensitive substring test. -/
theorem branch_hit_of_literal (k hay : String) (hk : regex_literal k = true) :
    branch_hit k hay = lcontains hay k := by
  unfold branch_hit
  rw [branch_parts_of_literal k hk]
  rfl

/-- A regex-literal keyword lies in the modelled fragment. -/
theorem fragment_branch_of_literal (k : String) (hk : regex_literal k = true) :
    fragment_branch k = true := by
  unfold fragment_branch
  rw [branch_parts_of_literal k hk]
  rw [regex_literal] at hk
  exact hk

/-- An exclusion list of regex-literal keywords passes the fragment check. -/
theorem frag_ok_of_literal (ks : List String)
    (h : ∀ k ∈ ks, regex_literal k = true) : frag_ok ks = true := by
  unfold frag_ok
  rw [List.all_eq_true]
  intro k hk
  exact fragment_branch_of_literal k (h k hk)

/-- C5 counterexample: with exclude list ["^a"] the joined pattern is the
anchored regex ^a, so the program keeps the entry c5caret, whose title
contains the literal text "^a" but does not start with "a": a returned
entry does have an exclude term as a case-insensitive substring of its
title, refuting the claim as stated over all keyword lists. -/
theorem c5_regex_exclusion_counterexample :
    filter_jobs [c5caret] ["python"] ["^a"] = .ok [c5caret] ∧
    lcontains c5caret.title "^a" = true :=
  ⟨by decide, by decide⟩

/-- C5 (amended): with a non-empty required list and a non-empty exclude
list all of whose keywords are regex literals (free of regex
metacharacters), filter_jobs and filter_resources raise nothing and every
returned entry carries every required term as a case-insensitive substring
of its title or description and no exclude term as a case-insensitive
substring of its title or description (require-all before exclude-any);
for exclude keywords with regex metacharacters the str.contains regex
semantics departs from the substring reading. -/
theorem c5_filter_sound_amended (jobEntries : List Job)
    (resEntries : List ScoutResource) (required excludes : List String)
    (hreq : required ≠ []) (hexc : excludes ≠ [])
    (hlit : ∀ k ∈ excludes, regex_literal k = true) :
    (match filter_jobs jobEntries required excludes with
     | .ok df => ∀ j ∈ df,
         (∀ k ∈ required, lcontains j.title k = true ∨ lcontains j.description k = true) ∧
         (∀ k ∈ excludes, lcontains j.title k = false ∧ lcontains j.description k = false)
     | .error _ => False) ∧
    (match filter_resources resEntries required excludes with
     | .ok df => ∀ r ∈ df,
         (∀ k ∈ required, lcontains r.title k = true ∨ lcontains r.description k = true) ∧
         (∀ k ∈ excludes, lcontains r.title k = false ∧ lcontains r.description k = false)
     | .error _ => False) := by
  have hreqF : required.isEmpty = false := by
    cases required with
    | nil => exact absurd rfl hreq
    | cons a l => rfl
  have hexcF : excludes.isEmpty = false := by
    cases excludes with
    | nil => exact absurd rfl hexc
    | cons a l => rfl
  have hfrag : frag_ok excludes = true := frag_ok_of_literal excludes hlit
  constructor
  · cases hent : jobEntries.isEmpty with
    | true =>
      rw [filter_jobs, if_pos hent]
      rw [List.isEmpty_iff] at hent
      rw [hent]
      intro j hj
      exact absurd hj (List.not_mem_nil j)
    | false =>
      rw [filter_jobs]
      simp only [hent, Bool.false_eq_true, if_false, hreqF, hexcF, Bool.false_or]
      cases hdf : (jobEntries.filter
          (fun x => all_skills_match required x.title x.description)).isEmpty with
      | true =>
        rw [if_pos (rfl : (true : Bool) = true)]
        rw [List.isEmpty_iff] at hdf
        rw [hdf]
        intro j hj
        exact absurd hj (List.not_mem_nil j)
      | false =>
        rw [if_neg Bool.false_ne_true, if_pos (by rw [hfrag])]
        intro j hj
        rw [List.mem_filter] at hj
        obtain ⟨hj1, hp2⟩ := hj
        rw [List.mem_filter] at hj1
        obtain ⟨hj0, hp1⟩ := hj1
        rw [List.mem_filter] at hj0
        obtain ⟨hmem, hall⟩ := hj0
        constructor
        · intro k hk
          have h2 : ∀ x ∈ required,
              lcontains j.description x = true ∨ lcontains j.title x = true := by
            simpa [all_skills_match] using hall
          exact (h2 k hk).elim Or.inr Or.inl
        · intro k hk
          have ht : any_branch_hit excludes j.title = false := by simpa using hp1
          have hd : any_branch_hit excludes j.description = false := by simpa using hp2
          have ht1 := List.any_eq_false.mp
            (by simpa [any_branch_hit] using ht) k hk
          have hd1 := List.any_eq_false.mp
            (by simpa [any_branch_hit] using hd) k hk
          have ht2 : branch_hit k j.title = false := by simpa using ht1
          have hd2 : branch_hit k j.description = false := by simpa using hd1
          rw [branch_hit_of_literal k j.title (hlit k hk)] at ht2
          rw [branch_hit_of_literal k j.description (hlit k hk)] at hd2
          exact ⟨ht2, hd2⟩
  · cases hent : resEntries.isEmpty with
    | true =>
      rw [filter_resources, if_pos hent]
      rw [List.isEmpty_iff] at hent
      rw [hent]
      intro r hr
      exact absurd hr (List.not_mem_nil r)
    | false =>
      rw [filter_resources]
      simp only [hent, Bool.false_eq_true, if_false, hreqF, hexcF, Bool.false_or]
      cases hdf : (resEntries.filter
          (fun x => all_skills_match required x.title x.description)).isEmpty with
      | true =>
        rw [if_pos (rfl : (true : Bool) = true)]
        rw [List.isEmpty_iff] at hdf
        rw [hdf]
        intro r hr
        exact absurd hr (List.not_mem_nil r)
      | false =>
        rw [if_neg Bool.false_ne_true, if_pos (by rw [hfrag])]
        intro r hr
        rw [List.mem_filter] at hr
        obtain ⟨hr1, hp2⟩ := hr
        rw [List.mem_filter] at hr1
        obtain ⟨hr0, hp1⟩ := hr1
        rw [List.mem_filter] at hr0
        obtain ⟨hmem, hall⟩ := hr0
        constructor
        · intro k hk
          have h2 : ∀ x ∈ required,
              lcontains r.description x = true ∨ lcontains r.title x = true := by
            simpa [all_skills_match] using hall
          exact (h2 k hk).elim Or.inr Or.inl
        · intro k hk
          have ht : any_branch_hit excludes r.title = false := by simpa using hp1
          have hd : any_branch_hit excludes r.description = false := by simpa using hp2
          have ht1 := List.any_eq_false.mp
            (by simpa [any_branch_hit] using ht) k hk
          have hd1 := List.any_eq_false.mp
            (by simpa [any_branch_hit] using hd) k hk
          have ht2 : branch_hit k r.title = false := by simpa using ht1
          have hd2 : branch_hit k r.description = false := by simpa using hd1
          rw [branch_hit_of_literal k r.title (hlit k hk)] at ht2
          rw [branch_hit_of_literal k r.description (hlit k hk)] at hd2
          exact ⟨ht2, hd2⟩

/-- C5 witness: with the literal keywords python and senior, both filters
succeed on the surviving concrete entry, which contains "python" and is
free of "senior". -/
theorem c5_filter_sound_amended_witness :
    (lcontains c5job.title "python" = true ∨ lcontains c5job.description "python" = true) ∧
    (lcontains c5job.title "senior" = false ∧ lcontains c5job.description "senior" = false) ∧
    (lcontains c5res.title "python" = true ∨ lcontains c5res.description "python" = true) :=
  ⟨((c5_filter_sound_amended [c5job] [c5res] ["python"] ["senior"]
      (by decide) (by decide) (by decide)).1 c5job (by decide)).1 "python" (by decide),
   ((c5_filter_sound_amended [c5job] [c5res] ["python"] ["senior"]
      (by decide) (by decide) (by decide)).1 c5job (by decide)).2 "senior" (by decide),
   ((c5_filter_sound_amended [c5job] [c5res] ["python"] ["senior"]
      (by decide) (by decide) (by decide)).2 c5res (by decide)).1 "python" (by decide)⟩

/-- C2 counterexample: the candidate c2cand hashes to "bacmed2", a dedup
key no stored row of c2store carries, yet add_resource_item answers
inserted = false and leaves the store unchanged, because its url collides
with the stored row c2row: the claim's "otherwise it inserts exactly one
new row ... and returns inserted=true" fails on the hash-keyed store. -/
theorem c2_addItem_counterexample :
    generate_resource_hash c2cand = .ok "bacmed2" ∧
    c2store.rows.all (fun x => x.resource_hash != "bacmed2") = true ∧
    add_resource_item c2store 5 c2cand = .ok (c2store, false) :=
  ⟨by decide, by decide, by decide⟩

/-- C2 (amended): each addItem computes its store's dedup key and rejects a
stored key unchanged with inserted = false; a fresh key inserts exactly one
row copying the candidate's fields with date_added set at insert time — in
the url-keyed stores unconditionally (their tables have no status column),
and in the hash-keyed store only when the url also collides with no stored
row (status then defaults to "new"); a url collision there is reported as a
duplicate without mutation even though the hash is fresh. -/
theorem c2_addItem_amended (jstore : JobStore) (sstore : ScoutStore)
    (rstore : RStore) (now : Nat) (job : Job) (sres : ScoutResource)
    (r : RCandidate) :
    ((∃ x ∈ jstore.rows, x.url = job.url) → add_job jstore now job = (jstore, false)) ∧
    ((∀ x ∈ jstore.rows, x.url ≠ job.url) →
      add_job jstore now job =
        ({ rows := jstore.rows ++ [mk_job_row jstore.nextId now job]
           nextId := jstore.nextId + 1 }, true)) ∧
    ((∃ x ∈ sstore.rows, x.url = sres.url) →
      add_resource sstore now sres = (sstore, false)) ∧
    ((∀ x ∈ sstore.rows, x.url ≠ sres.url) →
      add_resource sstore now sres =
        ({ rows := sstore.rows ++ [mk_scout_row sstore.nextId now sres]
           nextId := sstore.nextId + 1 }, true)) ∧
    (wellformedRC r = true →
      (((∃ x ∈ rstore.rows, x.resource_hash = raw_hash r) →
          add_resource_item rstore now r = .ok (rstore, false)) ∧
       ((∀ x ∈ rstore.rows, x.resource_hash ≠ raw_hash r) →
          url_conflict rstore r.url = false →
          add_resource_item rstore now r =
            .ok ({ rows := rstore.rows ++
                     [mk_resource_row rstore.nextId now r (raw_hash r) (r.title.getD "")]
                   nextId := rstore.nextId + 1 }, true)))) := by
  refine ⟨?_, ?_, ?_, ?_, ?_⟩
  · rintro ⟨x, hx, hxu⟩
    have h : (jstore.rows.any fun y => y.url == job.url) = true :=
      List.any_eq_true.mpr ⟨x, hx, by simp [hxu]⟩
    simp [add_job, h]
  · intro hall
    have h : (jstore.rows.any fun y => y.url == job.url) = false := by
      simp only [List.any_eq_false]
      intro x hx
      simpa using hall x hx
    simp [add_job, h]
  · rintro ⟨x, hx, hxu⟩
    have h : (sstore.rows.any fun y => y.url == sres.url) = true :=
      List.any_eq_true.mpr ⟨x, hx, by simp [hxu]⟩
    simp [add_resource, h]
  · intro hall
    have h : (sstore.rows.any fun y => y.url == sres.url) = false := by
      simp only [List.any_eq_false]
      intro x hx
      simpa using hall x hx
    simp [add_resource, h]
  · intro hwf
    constructor
    · rintro ⟨x, hx, hxh⟩
      have h : (rstore.rows.any fun y => y.resource_hash == raw_hash r) = true :=
        List.any_eq_true.mpr ⟨x, hx, by simp [hxh]⟩
      rw [add_resource_item_eq_of_wf rstore now r hwf]
      simp [h]
    · intro hall hconf
      have h : (rstore.rows.any fun y => y.resource_hash == raw_hash r) = false := by
        simp only [List.any_eq_false]
        intro x hx
        simpa using hall x hx
      rw [add_resource_item_eq_of_wf rstore now r hwf]
      simp [h, hconf]

/-- C2 witness: concrete duplicate rejections and fresh inserts across the
three addItem implementations, including the status "new" and clock-stamped
insert of the hash-keyed store. -/
theorem c2_addItem_amended_witness :
    add_job c1jstore 3 c1job = (c1jstore, false) ∧
    add_job jEmpty 3 c1job = ({ rows := [mk_job_row 1 3 c1job], nextId := 2 }, true) ∧
    add_resource c1store 3 c1res = (c1store, false) ∧
    add_resource sEmpty 3 c1res =
      ({ rows := [mk_scout_row 1 3 c1res], nextId := 2 }, true) ∧
    add_resource_item c2store 5 c2dup = .ok (c2store, false) ∧
    add_resource_item rEmpty 5 c2fresh =
      .ok ({ rows := [mk_resource_row 1 5 c2fresh (raw_hash c2fresh) "C"]
             nextId := 2 }, true) :=
  ⟨(c2_addItem_amended c1jstore sEmpty rEmpty 3 c1job c1res c2fresh).1 (by decide),
   (c2_addItem_amended jEmpty sEmpty rEmpty 3 c1job c1res c2fresh).2.1 (by decide),
   (c2_addItem_amended jEmpty c1store rEmpty 3 c1job c1res c2fresh).2.2.1 (by decide),
   (c2_addItem_amended jEmpty sEmpty rEmpty 3 c1job c1res c2fresh).2.2.2.1 (by decide),
   ((c2_addItem_amended jEmpty sEmpty c2store 5 c1job c1res c2dup).2.2.2.2
     (by decide)).1 (by decide),
   ((c2_addItem_amended jEmpty sEmpty rEmpty 5 c1job c1res c2fresh).2.2.2.2
     (by decide)).2 (by decide) (by decide)⟩

/-- C3 counterexample: a candidate with a missing required title makes
add_resources raise before anything is counted, logged or committed: the
whole batch aborts, including the well-formed candidate after the bad one,
so no newCount + duplicateCount + errorCount partition of the batch
exists. -/
theorem c3_missing_title_aborts_batch :
    add_resources rEmpty 0 [c3bad, c3good] = .error () := by decide

/-- C3 (amended): for a batch whose candidates all carry title, company and
description, add_resources succeeds with newCount + duplicateCount equal to
the batch length (the code has no separate error counter); a candidate
missing such a field raises an uncaught exception aborting the entire
batch. -/
theorem c3_addBatch_partition_amended (store : RStore) (now : Nat)
    (B : List RCandidate) :
    (∀ r ∈ B, wellformedRC r = true) →
    match add_resources store now B with
    | .ok out => out.2.1 + out.2.2 = B.length
    | .error _ => False := by
  induction B generalizing store with
  | nil =>
    intro _
    simp [add_resources]
  | cons r rest ih =>
    intro hwf
    have hr := hwf r (List.mem_cons_self r rest)
    have hrest : ∀ x ∈ rest, wellformedRC x = true :=
      fun x hx => hwf x (List.mem_cons_of_mem r hx)
    rcases hcase : add_resource_item store now r with he | ⟨s, inserted⟩
    · rw [add_resource_item_eq_of_wf store now r hr] at hcase
      split_ifs at hcase <;> simp at hcase
    · have ihr := ih s hrest
      rcases h2 : add_resources s now rest with he2 | ⟨s2, n, d⟩
      · rw [h2] at ihr
        exact ihr.elim
      · rw [h2] at ihr
        have ihr2 : n + d = rest.length := by simpa using ihr
        have hstep : add_resources store now (r :: rest) =
            .ok (s2, (if inserted then n + 1 else n), (if inserted then d else d + 1)) := by
          simp [add_resources, hcase, h2]
        rw [hstep]
        cases inserted
        · show n + (d + 1) = rest.length + 1
          omega
        · show (n + 1) + d = rest.length + 1
          omega

/-- C3 witness: a concrete two-candidate well-formed batch (the second a
duplicate of the first) satisfies the partition. -/
theorem c3_addBatch_partition_amended_witness :
    match add_resources rEmpty 0 [c3good, c3good] with
    | .ok out => out.2.1 + out.2.2 = [c3good, c3good].length
    | .error _ => False :=
  c3_addBatch_partition_amended rEmpty 0 [c3good, c3good] (by decide)

/-- A batch each of whose members hashes to a key the store already holds
is counted entirely as duplicates and leaves the store untouched. -/
theorem add_resources_all_dup (now : Nat) (B : List RCandidate) : ∀ s : RStore,
    (∀ r ∈ B, wellformedRC r = true) →
    (∀ r ∈ B, ∃ x ∈ s.rows, x.resource_hash = raw_hash r) →
    add_resources s now B = .ok (s, 0, B.length) := by
  induction B with
  | nil =>
    intro s _ _
    simp [add_resources]
  | cons r rest ih =>
    intro s hwf hmem
    have hr := hwf r (List.mem_cons_self r rest)
    obtain ⟨x, hx, hxh⟩ := hmem r (List.mem_cons_self r rest)
    have hany : (s.rows.any fun y => y.resource_hash == raw_hash r) = true :=
      List.any_eq_true.mpr ⟨x, hx, by simp [hxh]⟩
    have hitem : add_resource_item s now r = .ok (s, false) := by
      rw [add_resource_item_eq_of_wf s now r hr]
      simp [hany]
    have hrest := ih s (fun y hy => hwf y (List.mem_cons_of_mem r hy))
      (fun y hy => hmem y (List.mem_cons_of_mem r hy))
    simp [add_resources, hitem, hrest]

/-- A well-formed batch with pairwise distinct hashes and pairwise
non-colliding urls, none of which the store holds, is inserted entirely:
no duplicates, the old rows survive, and every batch hash is stored. -/
theorem add_resources_all_fresh (now : Nat) (B : List RCandidate) : ∀ s : RStore,
    (∀ r ∈ B, wellformedRC r = true) →
    (∀ r ∈ B, ∀ x ∈ s.rows, x.resource_hash ≠ raw_hash r) →
    (∀ r ∈ B, r.url = none ∨ ∀ x ∈ s.rows, x.url ≠ r.url) →
    B.Pairwise (fun a b => raw_hash a ≠ raw_hash b ∧ (a.url = none ∨ b.url ≠ a.url)) →
    ∃ s2 : RStore, add_resources s now B = .ok (s2, B.length, 0) ∧
      (∀ x ∈ s.rows, x ∈ s2.rows) ∧
      (∀ r ∈ B, ∃ x ∈ s2.rows, x.resource_hash = raw_hash r) := by
  induction B with
  | nil =>
    intro s _ _ _ _
    exact ⟨s, by simp [add_resources], fun x hx => hx, by simp⟩
  | cons r rest ih =>
    intro s hwf hhash hurl hpair
    have hr := hwf r (List.mem_cons_self r rest)
    have hany : (s.rows.any fun y => y.resource_hash == raw_hash r) = false := by
      simp only [List.any_eq_false]
      intro x hx
      simpa using hhash r (List.mem_cons_self r rest) x hx
    have hconf : url_conflict s r.url = false := by
      cases hu : r.url with
      | none => simp [url_conflict]
      | some u =>
        rcases hurl r (List.mem_cons_self r rest) with hn | hs
        · rw [hu] at hn
          cases hn
        · simp only [url_conflict, List.any_eq_false]
          intro x hx
          have := hs x hx
          rw [hu] at this
          simpa using this
    have hitem : add_resource_item s now r =
        .ok ({ rows := s.rows ++ [mk_resource_row s.nextId now r (raw_hash r) (r.title.getD "")]
               nextId := s.nextId + 1 }, true) := by
      rw [add_resource_item_eq_of_wf s now r hr]
      simp [hany, hconf]
    have hpair1 : ∀ y ∈ rest, raw_hash r ≠ raw_hash y ∧ (r.url = none ∨ y.url ≠ r.url) :=
      (List.pairwise_cons.mp hpair).1
    have hwf1 : ∀ y ∈ rest, wellformedRC y = true :=
      fun y hy => hwf y (List.mem_cons_of_mem r hy)
    have hhash1 : ∀ y ∈ rest,
        ∀ x ∈ (s.rows ++ [mk_resource_row s.nextId now r (raw_hash r) (r.title.getD "")]),
          x.resource_hash ≠ raw_hash y := by
      intro y hy x hx
      rcases List.mem_append.mp hx with hx1 | hx2
      · exact hhash y (List.mem_cons_of_mem r hy) x hx1
      · have hxe : x = mk_resource_row s.nextId now r (raw_hash r) (r.title.getD "") := by
          simpa using hx2
        rw [hxe]
        simpa [mk_resource_row] using (hpair1 y hy).1
    have hurl1 : ∀ y ∈ rest, y.url = none ∨
        ∀ x ∈ (s.rows ++ [mk_resource_row s.nextId now r (raw_hash r) (r.title.getD "")]),
          x.url ≠ y.url := by
      intro y hy
      cases hyu : y.url with
      | none => exact Or.inl rfl
      | some u =>
        right
        intro x hx
        rcases List.mem_append.mp hx with hx1 | hx2
        · rcases hurl y (List.mem_cons_of_mem r hy) with hn | hs2
          · rw [hyu] at hn
            cases hn
          · rw [hyu] at hs2
            exact hs2 x hx1
        · have hxe : x = mk_resource_row s.nextId now r (raw_hash r) (r.title.getD "") := by
            simpa using hx2
          rw [hxe]
          show (mk_resource_row s.nextId now r (raw_hash r) (r.title.getD "")).url ≠ some u
          simp only [mk_resource_row]
          rcases (hpair1 y hy).2 with hrn | hyr
          · rw [hrn]
            simp
          · rw [hyu] at hyr
            exact fun he => hyr he.symm
    obtain ⟨s2, hrun, hsub, hhashes⟩ :=
      ih { rows := s.rows ++ [mk_resource_row s.nextId now r (raw_hash r) (r.title.getD "")]
           nextId := s.nextId + 1 }
        hwf1 hhash1 hurl1 (List.pairwise_cons.mp hpair).2
    refine ⟨s2, ?_, ?_, ?_⟩
    · simp [add_resources, hitem, hrun]
    · intro x hx
      exact hsub x (List.mem_append.mpr (Or.inl hx))
    · intro y hy
      rcases List.mem_cons.mp hy with hyr | hy2
      · subst hyr
        refine ⟨mk_resource_row s.nextId now y (raw_hash y) (y.title.getD ""), ?_, by simp [mk_resource_row]⟩
        exact hsub _ (List.mem_append.mpr (Or.inr (by simp)))
      · exact hhashes y hy2

/-- C4 counterexample: the two-element batch [c4c, c4c] on an empty store
yields newCount = 1 and duplicateCount = 1 on its first run, not
newCount = len(B) = 2: a batch with an internal duplicate already breaks
the claimed first-run count. -/
theorem c4_first_run_count_fails :
    add_resources rEmpty 0 [c4c, c4c] =
      .ok ({ rows := [mk_resource_row 1 0 c4c (raw_hash c4c) "T"], nextId := 2 }, 1, 1) ∧
    (1 : Nat) ≠ [c4c, c4c].length :=
  ⟨by decide, by decide⟩

/-- C4 (amended): for a batch of well-formed candidates with pairwise
distinct hashes and pairwise non-colliding urls, presented to a store
holding none of the batch's hashes or urls, the first add_resources run
inserts the whole batch (newCount = len B, duplicateCount = 0) and a second
run of the same batch on the resulting store changes nothing
(newCount = 0, duplicateCount = len B). -/
theorem c4_idempotent_amended (store : RStore) (now now2 : Nat)
    (B : List RCandidate)
    (hwf : ∀ r ∈ B, wellformedRC r = true)
    (hhash : ∀ r ∈ B, ∀ x ∈ store.rows, x.resource_hash ≠ raw_hash r)
    (hurl : ∀ r ∈ B, r.url = none ∨ ∀ x ∈ store.rows, x.url ≠ r.url)
    (hpair : B.Pairwise (fun a b => raw_hash a ≠ raw_hash b ∧ (a.url = none ∨ b.url ≠ a.url))) :
    match add_resources store now B with
    | .ok out => out.2.1 = B.length ∧ out.2.2 = 0 ∧
        add_resources out.1 now2 B = .ok (out.1, 0, B.length)
    | .error _ => False := by
  obtain ⟨s2, hrun, hsub, hhashes⟩ :=
    add_resources_all_fresh now B store hwf hhash hurl hpair
  rw [hrun]
  exact ⟨rfl, rfl, add_resources_all_dup now2 B s2 hwf hhashes⟩

/-- C4 witness: the concrete distinct batch [c4a, c4b] on the empty store
inserts both on the first run and reports two duplicates with an unchanged
store on the second. -/
theorem c4_idempotent_amended_witness :
    match add_resources rEmpty 0 [c4a, c4b] with
    | .ok out => out.2.1 = [c4a, c4b].length ∧ out.2.2 = 0 ∧
        add_resources out.1 1 [c4a, c4b] = .ok (out.1, 0, [c4a, c4b].length)
    | .error _ => False :=
  c4_idempotent_amended rEmpty 0 1 [c4a, c4b]
    (by decide) (by decide) (by decide) (by decide)
